import Mathlib

/-!
Verification development for `axon_report.py`, a command-line utility that
fetches advertiser reports from the Axon (AppLovin) reporting API and renders
them as a terminal table or exports them to CSV.

Shallow embedding notes:
* JSON values decoded by `json.loads` are modelled by the inductive `Json`;
  Python ints and floats are separate constructors (`json.loads` distinguishes
  them), with floats modelled as exact rationals.
* Python dicts appearing as decoded JSON objects are association lists with
  unique keys; `dict.get` / `in` become `List.lookup`.
* I/O is made explicit: both renderers return the sequence of printed lines,
  CSV export additionally transforms an explicit file-system map, and the
  classification of the decoded response body inside `fetch_report` is the
  pure function `classify`.
-/

/-- Decoded JSON values as produced by Python's `json.loads`. Floats are
modelled as exact rationals (non-finite floats are outside the model). -/
inductive Json where
  | null : Json
  | bool : Bool → Json
  | int : Int → Json
  | float : ℚ → Json
  | str : String → Json
  | arr : List Json → Json
  | obj : List (String × Json) → Json

/-- Name of the Python type of a decoded JSON value, as `type(data)` reports it. -/
def pyTypeName : Json → String
  | .null => "NoneType"
  | .bool _ => "bool"
  | .int _ => "int"
  | .float _ => "float"
  | .str _ => "str"
  | .arr _ => "list"
  | .obj _ => "dict"

/-- Outcome of classifying the decoded JSON response body in `fetch_report`
(src/axon_report.py lines 64-73). `ok` carries `data["results"]` or the bare
array; `apiError` carries `data["error"]`; `unexpectedFormat` carries the
Python type name interpolated into the `ValueError` message. -/
inductive FetchResult where
  | ok : Json → FetchResult
  | apiError : Json → FetchResult
  | unexpectedFormat : String → FetchResult

/-- Classification of the decoded response body performed by `fetch_report`
(src/axon_report.py lines 64-73): an object with an `error` key fails first;
then an object with a `results` key succeeds with that value; then a bare
array succeeds; anything else is an unexpected format. -/
def classify (data : Json) : FetchResult :=
  match data with
  | .obj kvs =>
    match kvs.lookup "error" with
    | some v => .apiError v
    | none =>
      match kvs.lookup "results" with
      | some v => .ok v
      | none => .unexpectedFormat "dict"
  | .arr xs => .ok (.arr xs)
  | d => .unexpectedFormat (pyTypeName d)

/-- Base URL for the Axon reporting API (src/axon_report.py line 24). -/
def BASE_URL : String := "https://r.applovin.com/report"

/-- Column mapping, API column name to CSV header name, in its fixed order
(src/axon_report.py lines 27-33). -/
def COLUMN_MAPPING : List (String × String) :=
  [("day", "Date"),
   ("campaign", "campaign_name"),
   ("campaign_id_external", "campaign_id"),
   ("country", "country"),
   ("cost", "spend")]

/-- Query parameters assembled by `fetch_report` (src/axon_report.py lines
48-55), in insertion order. -/
def buildParams (apiKey startDate endDate : String) : List (String × String) :=
  [("api_key", apiKey),
   ("start", startDate),
   ("end", endDate),
   ("columns", String.intercalate "," (COLUMN_MAPPING.map Prod.fst)),
   ("format", "json"),
   ("report_type", "advertiser")]

/-- Uppercase hexadecimal digit for `n < 16`. -/
def hexDigit (n : Nat) : Char :=
  if n < 10 then Char.ofNat (48 + n) else Char.ofNat (55 + n)

/-- UTF-8 encoding of a single character as a list of byte values. -/
def utf8Bytes (c : Char) : List Nat :=
  let n := c.toNat
  if n < 128 then [n]
  else if n < 2048 then [192 + n / 64, 128 + n % 64]
  else if n < 65536 then [224 + n / 4096, 128 + (n / 64) % 64, 128 + n % 64]
  else [240 + n / 262144, 128 + (n / 4096) % 64, 128 + (n / 64) % 64, 128 + n % 64]

/-- Percent-encoding of one byte, uppercase hex as Python's `quote` emits. -/
def percentByte (b : Nat) : String :=
  "%" ++ String.singleton (hexDigit (b / 16)) ++ String.singleton (hexDigit (b % 16))

/-- Python's `urllib.parse.quote_plus` on one character: space becomes `+`,
ASCII alphanumerics and `_.-~` pass through, everything else is
percent-encoded per UTF-8 byte. -/
def quotePlusChar (c : Char) : String :=
  if c = ' ' then "+"
  else if c.isAlphanum ∨ c = '_' ∨ c = '.' ∨ c = '-' ∨ c = '~' then String.singleton c
  else String.join ((utf8Bytes c).map percentByte)

/-- Python's `urllib.parse.quote_plus` on a string. -/
def quotePlus (s : String) : String :=
  String.join (s.toList.map quotePlusChar)

/-- Python's `urllib.parse.urlencode` on an ordered list of key-value pairs. -/
def urlencode (params : List (String × String)) : String :=
  String.intercalate "&" (params.map (fun kv => quotePlus kv.1 ++ "=" ++ quotePlus kv.2))

/-- The full request URL built by `fetch_report` (src/axon_report.py line 57). -/
def buildUrl (apiKey startDate endDate : String) : String :=
  BASE_URL ++ "?" ++ urlencode (buildParams apiKey startDate endDate)

/-- Python truthiness of a decoded JSON value. -/
def truthy : Json → Bool
  | .null => false
  | .bool b => b
  | .int n => n ≠ 0
  | .float q => q ≠ 0
  | .str s => s ≠ ""
  | .arr xs => ¬ xs.isEmpty
  | .obj kvs => ¬ kvs.isEmpty

/-- Fractional decimal digits of `q` (assumed in `[0,1)`), up to `fuel` digits. -/
def fracDigits (fuel : Nat) (q : ℚ) : String :=
  match fuel with
  | 0 => ""
  | fuel + 1 =>
    if q = 0 then ""
    else toString (⌊q * 10⌋.toNat) ++ fracDigits fuel (q * 10 - ⌊q * 10⌋)

/-- Python's `str()` of a finite float, modelled on exact rationals: sign,
integer part, a dot, and the fractional digits (at least one, `3.0` style).
Scientific notation for extreme magnitudes is outside the model. -/
def floatRepr (q : ℚ) : String :=
  (if q < 0 then "-" else "")
    ++ toString (⌊|q|⌋.toNat)
    ++ "."
    ++ (if |q| - ⌊|q|⌋ = 0 then "0" else fracDigits 17 (|q| - ⌊|q|⌋))

mutual
/-- Python's `repr()` of a decoded JSON value (strings use single quotes;
quote-escaping of strings that themselves contain quotes is simplified). -/
def pyRepr : Json → String
  | .null => "None"
  | .bool b => if b then "True" else "False"
  | .int n => toString n
  | .float q => floatRepr q
  | .str s => "\x27" ++ s ++ "\x27"
  | .arr xs => "[" ++ pyReprList xs ++ "]"
  | .obj kvs => "\x7b" ++ pyReprObj kvs ++ "\x7d"

/-- Comma-separated `repr`s of list elements. -/
def pyReprList : List Json → String
  | [] => ""
  | [x] => pyRepr x
  | x :: y :: xs => pyRepr x ++ ", " ++ pyReprList (y :: xs)

/-- Comma-separated `repr`s of dict items. -/
def pyReprObj : List (String × Json) → String
  | [] => ""
  | [kv] => "\x27" ++ kv.1 ++ "\x27: " ++ pyRepr kv.2
  | kv :: x :: xs => "\x27" ++ kv.1 ++ "\x27: " ++ pyRepr kv.2 ++ ", " ++ pyReprObj (x :: xs)
end

/-- Python's `str()` of a decoded JSON value: like `repr` except a top-level
string passes through unquoted. -/
def pyStr : Json → String
  | .str s => s
  | v => pyRepr v

/-- Magnitude part of a Python float literal: digits with an optional decimal
point, at least one digit overall; returns the value and the rest. -/
def parseMantissa (cs : List Char) : Option (ℚ × List Char) :=
  let ip := cs.takeWhile Char.isDigit
  let r1 := cs.dropWhile Char.isDigit
  match r1 with
  | '.' :: r2 =>
    let fp := r2.takeWhile Char.isDigit
    let r3 := r2.dropWhile Char.isDigit
    if ip.isEmpty ∧ fp.isEmpty then none
    else
      some (((ip.foldl (fun a c => a * 10 + (c.toNat - 48)) 0 : Nat) : ℚ)
              + ((fp.foldl (fun a c => a * 10 + (c.toNat - 48)) 0 : Nat) : ℚ)
                / ((10 : ℚ) ^ fp.length),
            r3)
  | _ =>
    if ip.isEmpty then none
    else some (((ip.foldl (fun a c => a * 10 + (c.toNat - 48)) 0 : Nat) : ℚ), r1)

/-- Digits of an exponent, at least one; returns the (signed) value applied. -/
def parseExpDigits (sign : Int) (cs : List Char) : Option (Int × List Char) :=
  let ds := cs.takeWhile Char.isDigit
  let r := cs.dropWhile Char.isDigit
  if ds.isEmpty then none
  else some (sign * ((ds.foldl (fun a c => a * 10 + (c.toNat - 48)) 0 : Nat) : Int), r)

/-- Optional exponent part of a Python float literal (`e`/`E`, optional sign,
digits); absent exponent contributes `0`. -/
def parseExp : List Char → Option (Int × List Char)
  | 'e' :: '+' :: rest => parseExpDigits 1 rest
  | 'e' :: '-' :: rest => parseExpDigits (-1) rest
  | 'e' :: rest => parseExpDigits 1 rest
  | 'E' :: '+' :: rest => parseExpDigits 1 rest
  | 'E' :: '-' :: rest => parseExpDigits (-1) rest
  | 'E' :: rest => parseExpDigits 1 rest
  | cs => some (0, cs)

/-- Unsigned Python float literal: mantissa, optional exponent, end of input. -/
def pyFloatMag (cs : List Char) : Option ℚ :=
  match parseMantissa cs with
  | none => none
  | some (q, r1) =>
    match parseExp r1 with
    | none => none
    | some (e, r2) => if r2.isEmpty then some (q * (10 : ℚ) ^ e) else none

/-- Strip leading and trailing whitespace from a character list, as the
string passed to `float()` is stripped. -/
def stripWs (cs : List Char) : List Char :=
  ((cs.dropWhile Char.isWhitespace).reverse.dropWhile Char.isWhitespace).reverse

/-- Python's `float(str)` on finite decimal literals: optional surrounding
whitespace, optional sign, digits with optional decimal point and exponent.
Non-finite literals (`inf`, `nan`) and underscore digit separators are outside
the rational model. -/
def pyFloatOfString (s : String) : Option ℚ :=
  match stripWs s.toList with
  | '+' :: rest => pyFloatMag rest
  | '-' :: rest => (pyFloatMag rest).map (fun q => -q)
  | rest => pyFloatMag rest

/-- Python's `float()` conversion of a decoded JSON value; `none` models the
`TypeError`/`ValueError` raised on unconvertible values. -/
def pyFloat : Json → Option ℚ
  | .int n => some (n : ℚ)
  | .float q => some q
  | .bool b => some (if b then 1 else 0)
  | .str s => pyFloatOfString s
  | _ => none

/-- A report row: the decoded JSON object for one report entry, an association
list from API column key to value. -/
def Row : Type := List (String × Json)

/-- Python's `row.get(k, d)`: the value under `k`, or the default `d` when the
key is absent. -/
def rowGet (r : Row) (k : String) (d : Json) : Json :=
  (List.lookup k r).getD d

/-- Round a rational to the nearest integer, ties to even, as Python's `.2f`
float formatting rounds the scaled value. -/
def roundHalfEven (q : ℚ) : Int :=
  if q - ⌊q⌋ < 1/2 then ⌊q⌋
  else if q - ⌊q⌋ > 1/2 then ⌊q⌋ + 1
  else if ⌊q⌋ % 2 = 0 then ⌊q⌋ else ⌊q⌋ + 1

/-- Two-digit zero-padded decimal rendering of `n < 100`. -/
def natPad2 (n : Nat) : String :=
  if n < 10 then "0" ++ toString n else toString n

/-- Python's `f"{x:.2f}"` on a finite float modelled as an exact rational:
exactly two decimal places, half-even rounding at the hundredths. -/
def formatFix2 (q : ℚ) : String :=
  (if roundHalfEven (q * 100) < 0 then "-" else "")
    ++ toString ((roundHalfEven (q * 100)).natAbs / 100)
    ++ "."
    ++ natPad2 ((roundHalfEven (q * 100)).natAbs % 100)

/-- Python error message raised by `float()` on an unconvertible value. -/
def floatErrMsg : Json → String
  | .str s => "could not convert string to float: \x27" ++ s ++ "\x27"
  | v => "float() argument must be a string or a real number, not \x27"
          ++ pyTypeName v ++ "\x27"

/-- The cost cell built by `print_table` (src/axon_report.py line 102):
`f"{float(row.get('cost', 0)):.2f}" if row.get("cost") else "0.00"`.
`Except.error` models the exception `float()` raises on unconvertible truthy
values. -/
def tableCost (r : Row) : Except String String :=
  if truthy (rowGet r "cost" .null) then
    match pyFloat (rowGet r "cost" (.int 0)) with
    | some q => .ok (formatFix2 q)
    | none => .error (floatErrMsg (rowGet r "cost" (.int 0)))
  else .ok "0.00"

/-- The five display cells built for one row by `print_table`
(src/axon_report.py lines 96-103), already rendered through `str` as the
width computation and row printing apply it. -/
def buildCells (r : Row) : Except String (List String) :=
  match tableCost r with
  | .error e => .error e
  | .ok cost =>
    .ok [pyStr (rowGet r "day" (.str "")),
         pyStr (rowGet r "campaign" (.str "")),
         pyStr (rowGet r "campaign_id_external" (.str "")),
         pyStr (rowGet r "country" (.str "")),
         cost]

/-- One pass of the width update loop (src/axon_report.py lines 107-109):
`widths[i] = max(widths[i], len(str(cell)))` for each cell index. -/
def bumpWidths : List Nat → List String → List Nat
  | [], _ => []
  | ws, [] => ws
  | w :: ws, c :: cs => max w c.length :: bumpWidths ws cs

/-- Column widths computed by `print_table` (src/axon_report.py lines
105-109): header display lengths, bumped by every cell of every row. -/
def computeWidths (headers : List String) (rows : List (List String)) : List Nat :=
  rows.foldl bumpWidths (headers.map String.length)

/-- Python's `f"{s:<{w}}"`: left-justify `s` to width `w` with spaces. -/
def padRight (s : String) (w : Nat) : String :=
  s ++ String.mk (List.replicate (w - s.length) ' ')

/-- Separator line drawn by `print_table` (src/axon_report.py lines 112-113). -/
def sepLine (widths : List Nat) : String :=
  "+" ++ String.intercalate "+" (widths.map (fun w => String.mk (List.replicate (w + 2) '-'))) ++ "+"

/-- A table body line: cells left-justified to the column widths, separated
and flanked by `|` (src/axon_report.py lines 117 and 122). -/
def tableLine (widths : List Nat) (cells : List String) : String :=
  "|" ++ String.intercalate "|" ((cells.zip widths).map (fun cw => " " ++ padRight cw.1 cw.2 ++ " ")) ++ "|"

/-- The row-building loop of `print_table` (src/axon_report.py lines 95-103):
cells for every row in order, aborting at the first conversion error. -/
def buildAllCells : List Row → Except String (List (List String))
  | [] => .ok []
  | r :: rs =>
    match buildCells r, buildAllCells rs with
    | .error e, _ => .error e
    | .ok _, .error e => .error e
    | .ok c, .ok cs => .ok (c :: cs)

/-- The sequence of lines printed by `print_table` (src/axon_report.py lines
84-125), one list entry per `print` call; `Except.error` models the exception
propagating out of the cost conversion. -/
def printTable (data : List Row) : Except String (List String) :=
  if data.isEmpty then .ok ["No data found."]
  else
    match buildAllCells data with
    | .error e => .error e
    | .ok rows =>
      let headers := COLUMN_MAPPING.map Prod.snd
      let widths := computeWidths headers rows
      .ok ([sepLine widths, tableLine widths headers, sepLine widths]
            ++ rows.map (tableLine widths)
            ++ [sepLine widths, "\n" ++ toString rows.length ++ " rows"])

/-- Conversion the `csv` module applies to one field value: `None` becomes the
empty string, everything else goes through `str()`. -/
def pyCsvField : Json → String
  | .null => ""
  | v => pyStr v

/-- Minimal quoting of one CSV field as `csv.writer` performs it: fields
containing the delimiter, the quote character, or a line break are wrapped in
double quotes with inner quotes doubled. -/
def csvQuoteField (s : String) : String :=
  if s.toList.any (fun c => c = ',' ∨ c = '"' ∨ c = '\r' ∨ c = '\n') then
    "\"" ++ String.join (s.toList.map (fun c => if c = '"' then "\"\"" else String.singleton c)) ++ "\""
  else s

/-- One CSV record as `csv.writer.writerow` emits it (default dialect,
`\r\n` terminator). -/
def csvLine (fields : List String) : String :=
  String.intercalate "," (fields.map csvQuoteField) ++ "\r\n"

/-- The five raw field values built for one row by `export_to_csv`
(src/axon_report.py lines 143-149), before the csv module's conversion. -/
def csvRowValues (r : Row) : List Json :=
  [rowGet r "day" (.str ""),
   rowGet r "campaign" (.str ""),
   rowGet r "campaign_id_external" (.str ""),
   rowGet r "country" (.str ""),
   rowGet r "cost" (.str "")]

/-- The written cost field of one CSV data row: the raw `row.get("cost", "")`
value as the csv module writes it. -/
def csvCostField (r : Row) : String :=
  pyCsvField (rowGet r "cost" (.str ""))

/-- The full text content `export_to_csv` writes to the output file
(src/axon_report.py lines 138-150): header record then one record per row. -/
def csvContent (data : List Row) : String :=
  csvLine (COLUMN_MAPPING.map Prod.snd)
    ++ String.join (data.map (fun r => csvLine ((csvRowValues r).map pyCsvField)))

/-- An explicit file system: a map from path to file contents. -/
def FS : Type := String → Option String

/-- Effect of `export_to_csv` (src/axon_report.py lines 128-152) on the file
system, paired with the lines it prints to stderr: with no data it warns and
returns before opening the file; otherwise it writes the CSV content at the
output path and reports the exported row count. -/
def exportToCsv (data : List Row) (outputPath : String) (fs : FS) : FS × List String :=
  if data.isEmpty then (fs, ["Warning: No data to export."])
  else
    (fun p => if p = outputPath then some (csvContent data) else fs p,
     ["Exported " ++ toString data.length ++ " rows to " ++ outputPath])

/-- Gregorian leap-year test, as `datetime` uses. -/
def isLeap (y : Nat) : Bool :=
  (y % 4 = 0 ∧ y % 100 ≠ 0) ∨ y % 400 = 0

/-- Number of days in a month of a given year, as `datetime` validates. -/
def daysInMonth (y m : Nat) : Nat :=
  if m = 2 then (if isLeap y then 29 else 28)
  else if m = 4 ∨ m = 6 ∨ m = 9 ∨ m = 11 then 30
  else 31

/-- Decimal value of a digit character. -/
def digitVal (c : Char) : Nat := c.toNat - 48

/-- Match of `strptime`'s day pattern `(3[01]|[12]\d|0[1-9]|[1-9])` against
the rest of the input, which must end there, followed by the `datetime`
day-of-month range check. Backtracking from a two-digit day to a one-digit
day always leaves a trailing character, so it never helps. -/
def matchDayEnd (cs : List Char) (y m : Nat) : Bool :=
  match cs with
  | [d1, d2] =>
    (((d1 = '3' ∧ (d2 = '0' ∨ d2 = '1'))
      ∨ ((d1 = '1' ∨ d1 = '2') ∧ d2.isDigit)
      ∨ (d1 = '0' ∧ '1' ≤ d2 ∧ d2 ≤ '9'))
     ∧ decide (digitVal d1 * 10 + digitVal d2 ≤ daysInMonth y m))
  | [d1] => ('1' ≤ d1 ∧ d1 ≤ '9') ∧ decide (digitVal d1 ≤ daysInMonth y m)
  | _ => false

/-- Match of `strptime`'s month pattern `(1[0-2]|0[1-9]|[1-9])`, the literal
`-`, and the day to the end of input, with regex backtracking: a two-digit
month whose continuation fails falls back to the one-digit alternative. -/
def matchMonthDayEnd (cs : List Char) (y : Nat) : Bool :=
  (match cs with
   | m1 :: m2 :: '-' :: rest =>
     ((m1 = '1' ∧ (m2 = '0' ∨ m2 = '1' ∨ m2 = '2'))
       ∨ (m1 = '0' ∧ '1' ≤ m2 ∧ m2 ≤ '9'))
      ∧ matchDayEnd rest y (digitVal m1 * 10 + digitVal m2)
   | _ => false)
  || (match cs with
      | m1 :: '-' :: rest =>
        ('1' ≤ m1 ∧ m1 ≤ '9') ∧ matchDayEnd rest y (digitVal m1)
      | _ => false)

/-- Success of `datetime.strptime(s, "%Y-%m-%d")` (src/axon_report.py lines
193 and 200): four year digits, a dash, the month, a dash, the day, nothing
else, and a real calendar date with year at least 1. -/
def validDate (s : String) : Bool :=
  match s.toList with
  | y1 :: y2 :: y3 :: y4 :: '-' :: rest =>
    (y1.isDigit ∧ y2.isDigit ∧ y3.isDigit ∧ y4.isDigit)
      ∧ (let y := ((digitVal y1 * 10 + digitVal y2) * 10 + digitVal y3) * 10 + digitVal y4
         decide (1 ≤ y) ∧ matchMonthDayEnd rest y)
  | _ => false

/-- Observable outcome of `main`'s date-validation region up to the fetch
boundary (src/axon_report.py lines 190-206): whether `fetch_report` was
invoked, the exit status if the process exited there, and the stderr lines. -/
structure MainOutcome where
  fetchInvoked : Bool
  exitCode : Option Nat
  stderrLines : List String

/-- The date-validation region of `main` (src/axon_report.py lines 190-206):
start checked first, then end; an invalid boundary prints a diagnostic naming
it and exits with status 1 before `fetch_report` is reached; otherwise
control proceeds into the fetch call (whose network result is outside the
model). -/
def mainValidate (startArg endArg : String) : MainOutcome :=
  if startArg ≠ "now" ∧ ¬ validDate startArg then
    { fetchInvoked := false, exitCode := some 1,
      stderrLines := ["Error: Invalid start date format: " ++ startArg ++ ". Use YYYY-MM-DD."] }
  else if endArg ≠ "now" ∧ ¬ validDate endArg then
    { fetchInvoked := false, exitCode := some 1,
      stderrLines := ["Error: Invalid end date format: " ++ endArg ++ ". Use YYYY-MM-DD."] }
  else
    { fetchInvoked := true, exitCode := none, stderrLines := [] }

/-- C1: the decoded response body is classified in precedence order: an
object with an `error` key fails with an ApiError carrying that field's
value, even when `results` is also present; otherwise an object with a
`results` key returns that value; otherwise a bare list is returned
directly; anything else is an UnexpectedFormatError. In particular the body
`\x7b"error": "quota exceeded"\x7d` fails with an ApiError carrying
"quota exceeded". -/
theorem classify_precedence :
    (∀ (kvs : List (String × Json)) (v : Json),
        kvs.lookup "error" = some v → classify (.obj kvs) = .apiError v)
    ∧ (∀ (kvs : List (String × Json)) (v : Json),
        kvs.lookup "error" = none → kvs.lookup "results" = some v →
          classify (.obj kvs) = .ok v)
    ∧ (∀ xs : List Json, classify (.arr xs) = .ok (.arr xs))
    ∧ (∀ kvs : List (String × Json),
        kvs.lookup "error" = none → kvs.lookup "results" = none →
          classify (.obj kvs) = .unexpectedFormat "dict")
    ∧ (∀ d : Json, (∀ kvs, d ≠ Json.obj kvs) → (∀ xs, d ≠ Json.arr xs) →
        classify d = .unexpectedFormat (pyTypeName d))
    ∧ classify (.obj [("error", .str "quota exceeded")])
        = .apiError (.str "quota exceeded") := by
  refine ⟨?_, ?_, ?_, ?_, ?_, rfl⟩
  · intro kvs v h; simp [classify, h]
  · intro kvs v h1 h2; simp [classify, h1, h2]
  · intro xs; rfl
  · intro kvs h1 h2; simp [classify, h1, h2]
  · intro d hobj harr
    cases d with
    | obj kvs => exact absurd rfl (hobj kvs)
    | arr xs => exact absurd rfl (harr xs)
    | null => rfl
    | bool b => rfl
    | int n => rfl
    | float q => rfl
    | str s => rfl

/-- Witness for C1 at a body carrying both `error` and `results`. -/
theorem classify_precedence_witness :
    classify (.obj [("error", .str "quota exceeded"), ("results", .arr [])])
      = .apiError (.str "quota exceeded") :=
  classify_precedence.1 [("error", .str "quota exceeded"), ("results", .arr [])]
    (.str "quota exceeded") rfl

/-- C4: for every list of rows `A`, a body decoding to the object
`\x7b"results": A\x7d` and a body decoding to the bare array `A` produce the
same returned row sequence, namely `A` itself. -/
theorem results_envelope_equiv (A : List Json) :
    classify (.obj [("results", .arr A)]) = .ok (.arr A)
    ∧ classify (.arr A) = .ok (.arr A)
    ∧ classify (.obj [("results", .arr A)]) = classify (.arr A) :=
  ⟨rfl, rfl, rfl⟩

/-- C8: the request builder produces exactly the six query parameters — the
API key, the boundaries verbatim, the comma-joined column keys in the fixed
mapping order, the literal `json` format selector, and the literal
`advertiser` report type — and the URL is the fixed base endpoint with that
query string. -/
theorem request_params_exact (k s e : String) :
    buildParams k s e =
      [("api_key", k), ("start", s), ("end", e),
       ("columns", "day,campaign,campaign_id_external,country,cost"),
       ("format", "json"), ("report_type", "advertiser")]
    ∧ String.intercalate "," (COLUMN_MAPPING.map Prod.fst)
        = "day,campaign,campaign_id_external,country,cost"
    ∧ buildUrl k s e = BASE_URL ++ "?" ++ urlencode (buildParams k s e) :=
  ⟨rfl, rfl, rfl⟩

/-- C6: on the empty row sequence, table mode prints only the no-data notice
and CSV mode only warns, leaving the file system untouched and writing no
rows. -/
theorem empty_rows_render :
    printTable [] = .ok ["No data found."]
    ∧ ∀ (p : String) (fs : FS),
        exportToCsv [] p fs = (fs, ["Warning: No data to export."]) :=
  ⟨rfl, fun _ _ => rfl⟩

/-- C9: on the empty row sequence, CSV export returns before opening the
output path: the file system is unchanged, so no file is created and any
existing file at the path keeps its exact contents. -/
theorem empty_export_fs_unchanged (p : String) (fs : FS) :
    (exportToCsv [] p fs).1 = fs ∧ (exportToCsv [] p fs).1 p = fs p :=
  ⟨rfl, rfl⟩

/-- Counterexample for C2: a row whose cost is the number 0 has its CSV cost
field written as "0", not as the empty string. -/
theorem csv_cost_zero_counterexample :
    csvCostField [("cost", Json.int 0)] = "0"
    ∧ csvCostField [("cost", Json.int 0)] ≠ "" :=
  ⟨rfl, by decide⟩

/-- C2 (amended): in CSV mode the cost value is passed through raw — never
rounded and never defaulted to `0.00`; for an absent key, `null`, and the
empty string the written field is the empty string, while the number 0 is
written as its raw form `0`. -/
theorem csv_cost_raw (r : Row) :
    (List.lookup "cost" r = none → csvCostField r = "")
    ∧ (List.lookup "cost" r = some .null → csvCostField r = "")
    ∧ (List.lookup "cost" r = some (.str "") → csvCostField r = "")
    ∧ (List.lookup "cost" r = some (.int 0) → csvCostField r = "0")
    ∧ (∀ v, List.lookup "cost" r = some v → csvCostField r = pyCsvField v) := by
  refine ⟨?_, ?_, ?_, ?_, ?_⟩
  · intro h; simp only [csvCostField, rowGet, h]; rfl
  · intro h; simp only [csvCostField, rowGet, h]; rfl
  · intro h; simp only [csvCostField, rowGet, h]; rfl
  · intro h; simp only [csvCostField, rowGet, h]; rfl
  · intro v h; simp only [csvCostField, rowGet, h]; rfl

/-- Witness for C2 at rows with a null cost and with no cost key. -/
theorem csv_cost_raw_witness :
    csvCostField [("cost", Json.null)] = "" ∧ csvCostField [] = "" :=
  ⟨(csv_cost_raw [("cost", Json.null)]).2.1 rfl, (csv_cost_raw []).1 rfl⟩

/-- Evaluation of the two-decimal formatter at 12.5. -/
theorem formatFix2_twelve_and_a_half : formatFix2 (25/2) = "12.50" := by
  have hr : roundHalfEven ((25 : ℚ)/2 * 100) = 1250 := by
    norm_num [roundHalfEven]
  simp only [formatFix2, hr]
  rfl

/-- C3: in table mode the cost cell is the cost value formatted to exactly
two decimal places; for the cost values 0, absent, null, and the empty
string the cell is exactly `0.00`, and for 12.5 it is exactly `12.50`. -/
theorem table_cost_format (r : Row) :
    (List.lookup "cost" r = none → tableCost r = .ok "0.00")
    ∧ (List.lookup "cost" r = some .null → tableCost r = .ok "0.00")
    ∧ (List.lookup "cost" r = some (.str "") → tableCost r = .ok "0.00")
    ∧ (List.lookup "cost" r = some (.int 0) → tableCost r = .ok "0.00")
    ∧ (List.lookup "cost" r = some (.float (25/2)) → tableCost r = .ok "12.50")
    ∧ (∀ v q, List.lookup "cost" r = some v → truthy v = true →
        pyFloat v = some q → tableCost r = .ok (formatFix2 q)) := by
  refine ⟨?_, ?_, ?_, ?_, ?_, ?_⟩
  · intro h; simp only [tableCost, rowGet, h]; rfl
  · intro h; simp only [tableCost, rowGet, h]; rfl
  · intro h; simp only [tableCost, rowGet, h]; rfl
  · intro h; simp only [tableCost, rowGet, h]; rfl
  · intro h
    simp only [tableCost, rowGet, h, Option.getD]
    norm_num [truthy, pyFloat]
    exact formatFix2_twelve_and_a_half
  · intro v q h ht hf
    simp [tableCost, rowGet, h, ht, hf]

/-- Witness for C3 at a row with cost 12.5 and at a row with no cost key. -/
theorem table_cost_format_witness :
    tableCost [("cost", Json.float (25/2))] = .ok "12.50"
    ∧ tableCost [] = .ok "0.00" :=
  ⟨(table_cost_format [("cost", Json.float (25/2))]).2.2.2.2.1 rfl,
   (table_cost_format []).1 rfl⟩

/-- C5: a start or end boundary that is neither the literal `now` nor a valid
`YYYY-MM-DD` calendar date makes `main` exit with status 1 before
`fetch_report` is ever invoked, printing a diagnostic on stderr that names
the offending value. -/
theorem invalid_date_no_fetch (s e : String) :
    (s ≠ "now" → validDate s = false →
      mainValidate s e =
        { fetchInvoked := false, exitCode := some 1,
          stderrLines := ["Error: Invalid start date format: " ++ s ++ ". Use YYYY-MM-DD."] })
    ∧ (e ≠ "now" → validDate e = false → (s = "now" ∨ validDate s = true) →
      mainValidate s e =
        { fetchInvoked := false, exitCode := some 1,
          stderrLines := ["Error: Invalid end date format: " ++ e ++ ". Use YYYY-MM-DD."] })
    ∧ ((s = "now" ∨ validDate s = true) → (e = "now" ∨ validDate e = true) →
      (mainValidate s e).fetchInvoked = true) := by
  refine ⟨?_, ?_, ?_⟩
  · intro h1 h2
    simp [mainValidate, h1, h2]
  · intro h1 h2 h3
    have hs : ¬ (s ≠ "now" ∧ ¬ validDate s = true) := by
      rcases h3 with h | h
      · intro hc; exact hc.1 h
      · intro hc; exact hc.2 h
    simp only [mainValidate, if_neg hs]
    simp [h1, h2]
  · intro h3 h4
    have hs : ¬ (s ≠ "now" ∧ ¬ validDate s = true) := by
      rcases h3 with h | h
      · intro hc; exact hc.1 h
      · intro hc; exact hc.2 h
    have he : ¬ (e ≠ "now" ∧ ¬ validDate e = true) := by
      rcases h4 with h | h
      · intro hc; exact hc.1 h
      · intro hc; exact hc.2 h
    simp only [mainValidate, if_neg hs, if_neg he]

/-- Witness for C5: the invalid date 2025-13-40 as start boundary exits with
status 1, names the value, and never reaches the fetch; a valid range does
reach the fetch. -/
theorem invalid_date_no_fetch_witness :
    mainValidate "2025-13-40" "now" =
      { fetchInvoked := false, exitCode := some 1,
        stderrLines := ["Error: Invalid start date format: 2025-13-40. Use YYYY-MM-DD."] }
    ∧ (mainValidate "2025-12-24" "now").fetchInvoked = true :=
  ⟨(invalid_date_no_fetch "2025-13-40" "now").1 (by decide) (by decide),
   (invalid_date_no_fetch "2025-12-24" "now").2.2 (Or.inr (by decide)) (Or.inl rfl)⟩

/-- The width update loop never changes the number of columns. -/
theorem bumpWidths_length (ws : List Nat) (r : List String) :
    (bumpWidths ws r).length = ws.length := by
  induction ws generalizing r with
  | nil => cases r <;> rfl
  | cons w ws ih =>
    cases r with
    | nil => rfl
    | cons c cs => simp [bumpWidths, ih]

/-- One width update takes the pointwise maximum with the cell length. -/
theorem bumpWidths_getD (ws : List Nat) (r : List String) (i : Nat)
    (hi : i < ws.length) (hr : i < r.length) :
    (bumpWidths ws r).getD i 0 = max (ws.getD i 0) ((r.getD i "").length) := by
  induction ws generalizing r i with
  | nil => simp at hi
  | cons w ws ih =>
    cases r with
    | nil => simp at hr
    | cons c cs =>
      cases i with
      | zero => rfl
      | succ n =>
        simp only [bumpWidths, List.getD_cons_succ]
        exact ih cs n (Nat.lt_of_succ_lt_succ hi) (Nat.lt_of_succ_lt_succ hr)

/-- Folding the width update over the rows computes, per column, the fold of
`max` over that column's cell lengths. -/
theorem foldl_bump_getD (rows : List (List String)) (ws : List Nat) (i : Nat)
    (hi : i < ws.length) (hlen : ∀ r ∈ rows, ws.length ≤ r.length) :
    (rows.foldl bumpWidths ws).getD i 0
      = rows.foldl (fun acc r => max acc ((r.getD i "").length)) (ws.getD i 0) := by
  induction rows generalizing ws with
  | nil => rfl
  | cons r rs ih =>
    rw [List.foldl_cons, List.foldl_cons]
    have hws : (bumpWidths ws r).length = ws.length := bumpWidths_length ws r
    have hri : i < r.length :=
      Nat.lt_of_lt_of_le hi (hlen r (List.mem_cons_self r rs))
    rw [ih (bumpWidths ws r) (hws ▸ hi)
          (fun r' hr' => hws ▸ hlen r' (List.mem_cons_of_mem r hr'))]
    rw [bumpWidths_getD ws r i hi hri]

/-- The initial accumulator is a lower bound of a `max` fold. -/
theorem le_foldl_max_init {α : Type} (f : α → Nat) (l : List α) (b : Nat) :
    b ≤ l.foldl (fun acc x => max acc (f x)) b := by
  induction l generalizing b with
  | nil => exact Nat.le_refl b
  | cons x xs ih =>
    exact Nat.le_trans (Nat.le_max_left b (f x)) (ih (max b (f x)))

/-- Every element's value is a lower bound of a `max` fold. -/
theorem le_foldl_max_mem {α : Type} (f : α → Nat) (l : List α) (b : Nat)
    (x : α) (hx : x ∈ l) :
    f x ≤ l.foldl (fun acc y => max acc (f y)) b := by
  induction l generalizing b with
  | nil => cases hx
  | cons y ys ih =>
    rcases List.mem_cons.mp hx with h | h
    · subst h
      exact Nat.le_trans (Nat.le_max_right b (f x)) (le_foldl_max_init f ys (max b (f x)))
    · exact ih (max b (f y)) h


/-- Every successfully built row has exactly five cells. -/
theorem buildCells_length (r : Row) (cs : List String)
    (h : buildCells r = .ok cs) : cs.length = 5 := by
  unfold buildCells at h
  cases htc : tableCost r with
  | error e => rw [htc] at h; cases h
  | ok c => rw [htc] at h; cases h; rfl

/-- Every row list produced by the row-building loop consists of five-cell
rows. -/
theorem buildAllCells_lengths (data : List Row) (rows : List (List String))
    (h : buildAllCells data = .ok rows) :
    ∀ cs ∈ rows, cs.length = 5 := by
  induction data generalizing rows with
  | nil =>
    cases h
    intro cs hcs; cases hcs
  | cons r rs ih =>
    unfold buildAllCells at h
    cases hc : buildCells r with
    | error e => rw [hc] at h; cases h
    | ok c =>
      rw [hc] at h
      cases hrest : buildAllCells rs with
      | error e => rw [hrest] at h; cases h
      | ok cs' =>
        rw [hrest] at h
        cases h
        intro cs hcs
        rcases List.mem_cons.mp hcs with h' | h'
        · subst h'; exact buildCells_length r cs hc
        · exact ih cs' hrest cs h'

/-- C7: for every row sequence whose cells build successfully, each of the
five computed column widths equals the maximum of the header's display
length and the lengths of all cells in that column — and is therefore at
least the header's width and at least every cell's width in that column. -/
theorem table_widths_max (data : List Row) (rows : List (List String))
    (h : buildAllCells data = .ok rows) (i : Nat) (hi : i < 5) :
    (computeWidths (COLUMN_MAPPING.map Prod.snd) rows).getD i 0
      = rows.foldl (fun acc cs => max acc ((cs.getD i "").length))
          (((COLUMN_MAPPING.map Prod.snd).getD i "").length)
    ∧ ((COLUMN_MAPPING.map Prod.snd).getD i "").length
        ≤ (computeWidths (COLUMN_MAPPING.map Prod.snd) rows).getD i 0
    ∧ ∀ cs ∈ rows, ((cs.getD i "").length)
        ≤ (computeWidths (COLUMN_MAPPING.map Prod.snd) rows).getD i 0 := by
  have h5 : ((COLUMN_MAPPING.map Prod.snd).map String.length).length = 5 := rfl
  have hlen : ∀ cs ∈ rows,
      ((COLUMN_MAPPING.map Prod.snd).map String.length).length ≤ cs.length := by
    intro cs hcs
    rw [h5, buildAllCells_lengths data rows h cs hcs]
  have hi' : i < ((COLUMN_MAPPING.map Prod.snd).map String.length).length := by
    rw [h5]; exact hi
  have key := foldl_bump_getD rows ((COLUMN_MAPPING.map Prod.snd).map String.length) i hi' hlen
  have hbase : ((COLUMN_MAPPING.map Prod.snd).map String.length).getD i 0
      = ((COLUMN_MAPPING.map Prod.snd).getD i "").length := by
    interval_cases i <;> rfl
  rw [hbase] at key
  refine ⟨key, ?_, ?_⟩
  · rw [computeWidths, key]
    exact le_foldl_max_init (fun cs => (cs.getD i "").length) rows _
  · intro cs hcs
    rw [computeWidths, key]
    exact le_foldl_max_mem (fun cs => (cs.getD i "").length) rows _ cs hcs

/-- Witness for C7 on a one-row sequence. -/
theorem table_widths_max_witness :
    (computeWidths (COLUMN_MAPPING.map Prod.snd)
        [["2025-01-01", "", "", "", "0.00"]]).getD 0 0
      = [["2025-01-01", "", "", "", "0.00"]].foldl
          (fun acc cs => max acc ((cs.getD 0 "").length))
          (((COLUMN_MAPPING.map Prod.snd).getD 0 "").length)
    ∧ ((COLUMN_MAPPING.map Prod.snd).getD 0 "").length
        ≤ (computeWidths (COLUMN_MAPPING.map Prod.snd)
            [["2025-01-01", "", "", "", "0.00"]]).getD 0 0
    ∧ ∀ cs ∈ [["2025-01-01", "", "", "", "0.00"]], ((cs.getD 0 "").length)
        ≤ (computeWidths (COLUMN_MAPPING.map Prod.snd)
            [["2025-01-01", "", "", "", "0.00"]]).getD 0 0 :=
  table_widths_max [[("day", Json.str "2025-01-01")]]
    [["2025-01-01", "", "", "", "0.00"]] rfl 0 (by decide)

/-- The cost cell builds whenever a truthy cost value converts to a float. -/
theorem tableCost_ok_of_cost (r : Row)
    (hc : truthy (rowGet r "cost" .null) = true →
      (pyFloat (rowGet r "cost" (.int 0))).isSome = true) :
    ∃ c, tableCost r = .ok c := by
  cases ht : truthy (rowGet r "cost" .null) with
  | false => exact ⟨"0.00", by simp [tableCost, ht]⟩
  | true =>
    cases hf : pyFloat (rowGet r "cost" (.int 0)) with
    | none =>
      have := hc ht
      rw [hf] at this
      cases this
    | some q => exact ⟨formatFix2 q, by simp [tableCost, ht, hf]⟩

/-- The whole row-building loop succeeds whenever every row's truthy cost
value converts to a float. -/
theorem buildAllCells_ok (data : List Row)
    (hc : ∀ r ∈ data, truthy (rowGet r "cost" .null) = true →
      (pyFloat (rowGet r "cost" (.int 0))).isSome = true) :
    ∃ rows, buildAllCells data = .ok rows := by
  induction data with
  | nil => exact ⟨[], rfl⟩
  | cons r rs ih =>
    obtain ⟨c, hcst⟩ := tableCost_ok_of_cost r (hc r (List.mem_cons_self r rs))
    have hbc : buildCells r =
        .ok [pyStr (rowGet r "day" (.str "")),
             pyStr (rowGet r "campaign" (.str "")),
             pyStr (rowGet r "campaign_id_external" (.str "")),
             pyStr (rowGet r "country" (.str "")),
             c] := by
      unfold buildCells; rw [hcst]
    obtain ⟨rows, hrows⟩ := ih (fun r' hr' => hc r' (List.mem_cons_of_mem r hr'))
    exact ⟨_, by unfold buildAllCells; rw [hbc, hrows]⟩

/-- C10: table rendering is a partial function of the row data — a row whose
cost is the truthy non-numeric string "N/A" makes it fail with Python's
float-conversion error instead of producing a table — and it is total under
the precondition that every truthy cost value converts to a float. -/
theorem table_cost_partiality :
    printTable [[("cost", Json.str "N/A")]]
        = .error "could not convert string to float: \x27N/A\x27"
    ∧ ∀ data : List Row,
        (∀ r ∈ data, truthy (rowGet r "cost" .null) = true →
          (pyFloat (rowGet r "cost" (.int 0))).isSome = true) →
        ∃ out, printTable data = .ok out := by
  constructor
  · rfl
  · intro data hc
    cases hd : data.isEmpty with
    | true =>
      have : data = [] := List.isEmpty_iff.mp hd
      subst this
      exact ⟨["No data found."], rfl⟩
    | false =>
      obtain ⟨rows, hrows⟩ := buildAllCells_ok data hc
      cases hpt : printTable data with
      | ok out => exact ⟨out, rfl⟩
      | error e =>
        unfold printTable at hpt
        rw [hd] at hpt
        simp [hrows] at hpt

/-- Witness for C10: a row whose cost is the number 3 renders successfully. -/
theorem table_cost_partiality_witness :
    ∃ out, printTable [[("cost", Json.int 3)]] = .ok out :=
  table_cost_partiality.2 [[("cost", Json.int 3)]] (by decide)
